import Mathlib

/-!
Shallow embedding of `internal/db/supabase.go` (package `db`) of the
greentrade.eu backend, and proofs about its lifecycle and
request/response contract.

External collaborators are modelled as parameters:

* the HTTP transport (resty): each operation takes the outcome of its
  single HTTP exchange as `Except String HttpResp`, where `.error e`
  models a non-nil transport error returned by the send call and
  `.ok resp` a delivered response (status code + raw body, bytes
  modelled as `String`);
* `encoding/json` (`json.Unmarshal`): operations that deserialize a
  body take a parse oracle `String → Except String α` for the target
  structure (`.error e` models a non-nil unmarshal error with message
  `e`);
* the process environment (`os.Getenv`): a record of the three
  variables the construction path reads.

Go errors are modelled as their `fmt.Errorf` message strings, and each
Go function returning `(value, error)` is modelled as returning the
pair `Option value × Option String`, mirroring the two return slots.
`uuid.UUID` is modelled as `Nat`, with the zero-value UUID being `0`.
-/

namespace db

/-- The three environment variables read by `NewSupabaseClient`
(supabase.go lines 66-75). -/
structure Env where
  SUPABASE_URL : String
  SUPABASE_ANON : String
  SUPABASE_SERVICE_KEY : String
deriving DecidableEq

/-- `SupabaseClient` (lines 24-28). The owned resty handle (`Client`
field) is an external collaborator configured from `URL`/`APIKey` and
carries no further observable state, so it is omitted. -/
structure SupabaseClient where
  URL : String
  APIKey : String
deriving DecidableEq

/-- An HTTP response as observed through resty: `resp.StatusCode()`
and `resp.Body()`. -/
structure HttpResp where
  status : Nat
  body : String
deriving DecidableEq

/-- Outcome of one HTTP exchange; `.error e` models `err != nil` from
the send call. -/
abbrev Exchange := Except String HttpResp

/-- The credential selection inside `NewSupabaseClient` (lines 68-75):
Go `len(useServiceKey) > 0 && useServiceKey[0]` picks the service key,
otherwise the anon key. The variadic `useServiceKey ...bool` argument
is modelled as `List Bool`. -/
def selectedKey (env : Env) (useServiceKey : List Bool) : String :=
  match useServiceKey with
  | b :: _ => if b then env.SUPABASE_SERVICE_KEY else env.SUPABASE_ANON
  | [] => env.SUPABASE_ANON

/-- `NewSupabaseClient` (lines 65-97): returns nil when the URL or the
selected key is empty, otherwise a fully populated client. -/
def NewSupabaseClient (env : Env) (useServiceKey : List Bool) : Option SupabaseClient :=
  let url := env.SUPABASE_URL
  let apiKey := selectedKey env useServiceKey
  if url = "" ∨ apiKey = "" then
    none
  else
    some { URL := url, APIKey := apiKey }

/-- The package-level mutable state (lines 17-22): the `globalClient`
pointer and whether `globalClientOnce` has fired. The mutexes
serialize the critical sections, so a sequential state-passing model
captures every observable interleaving of completed calls. -/
structure GlobalState where
  globalClient : Option SupabaseClient
  onceDone : Bool
deriving DecidableEq

/-- Process start: no client, `sync.Once` not fired. -/
def GlobalState.initial : GlobalState := ⟨none, false⟩

/-- Result of one `GetGlobalClient` call: the returned pointer, the
state after the call, and how many times `NewSupabaseClient` ran
during the call. -/
structure AccessResult where
  client : Option SupabaseClient
  state : GlobalState
  constructions : Nat
deriving DecidableEq

/-- `GetGlobalClient` (lines 45-62): fast path returns the existing
pointer; otherwise it runs `NewSupabaseClient()` (anon tier) and
stores the result — whatever it is, nil included — without touching
`globalClientOnce`. -/
def GetGlobalClient (env : Env) (st : GlobalState) : AccessResult :=
  match st.globalClient with
  | some c => ⟨some c, st, 0⟩
  | none =>
      let c := NewSupabaseClient env []
      ⟨c, { st with globalClient := c }, 1⟩

/-- Result of one `InitGlobalClient` call: the two Go return values,
the state after the call, and how many times `NewSupabaseClient` ran
during the call. -/
structure InitResult where
  client : Option SupabaseClient
  err : Option String
  state : GlobalState
  constructions : Nat
deriving DecidableEq

/-- `InitGlobalClient` (lines 31-41): runs the construction inside
`globalClientOnce.Do` — so exactly when the Once has not fired yet,
assigning `globalClient` even if it already holds an instance — then
errors iff the pointer is nil afterwards. -/
def InitGlobalClient (env : Env) (useServiceKey : List Bool) (st : GlobalState) : InitResult :=
  let stk : GlobalState × Nat :=
    if st.onceDone then (st, 0)
    else ({ globalClient := NewSupabaseClient env useServiceKey, onceDone := true }, 1)
  match stk.1.globalClient with
  | none => ⟨none, some "failed to initialize global Supabase client", stk.1, stk.2⟩
  | some c => ⟨some c, none, stk.1, stk.2⟩

/-- Iterate `GetGlobalClient` n times from a state, returning the
final state and the total number of construction attempts. -/
def runGets (env : Env) : Nat → GlobalState → GlobalState × Nat
  | 0, st => (st, 0)
  | n + 1, st =>
      let r := GetGlobalClient env st
      let rest := runGets env n r.state
      (rest.1, r.constructions + rest.2)

/-- `GET` (lines 100-115). -/
def SupabaseClient.GET (_s : SupabaseClient) (_table _query : String) (r : Exchange) :
    Option String × Option String :=
  match r with
  | .error e => (none, some e)
  | .ok resp =>
      let body := resp.body
      if resp.status < 200 ∨ 300 ≤ resp.status then
        (none, some ("supabase error: status " ++ toString resp.status ++ " - " ++ body))
      else
        (some body, none)

/-- `POST` (lines 118-142). Note the empty-body normalization (line
133) precedes the 201 status check (line 137). -/
def SupabaseClient.POST (_s : SupabaseClient) (_table _data : String) (r : Exchange) :
    Option String × Option String :=
  match r with
  | .error e => (none, some e)
  | .ok resp =>
      let body := resp.body
      if body.length = 0 then
        (some "\x7b\x7d", none)
      else if resp.status ≠ 201 then
        (none, some ("supabase error: " ++ body))
      else
        (some body, none)

/-- `PATCH` (lines 145-163). -/
def SupabaseClient.PATCH (_s : SupabaseClient) (_table : String) (_id : Nat) (_data : String)
    (r : Exchange) : Option String × Option String :=
  match r with
  | .error e => (none, some e)
  | .ok resp =>
      let respBody := resp.body
      if resp.status < 200 ∨ 300 ≤ resp.status then
        (none, some ("supabase PATCH error (" ++ toString resp.status ++ "): " ++ respBody))
      else
        (some respBody, none)

/-- `DELETE` (lines 166-181). -/
def SupabaseClient.DELETE (_s : SupabaseClient) (_table _conditions : String) (r : Exchange) :
    Option String × Option String :=
  match r with
  | .error e => (none, some ("failed to execute DELETE request: " ++ e))
  | .ok resp =>
      let respBody := resp.body
      if resp.status < 200 ∨ 300 ≤ resp.status then
        (none, some ("DELETE operation failed (status " ++ toString resp.status ++ "): " ++ respBody))
      else
        (some respBody, none)

/-- Go `strings.HasSuffix`: a case-sensitive byte-level suffix test
(modelled on characters, which agrees on the ASCII inputs here). -/
def goHasSuffix (s suffix : String) : Bool :=
  suffix.data.isSuffixOf s.data

/-- The content-type inference inside `UploadImage` (lines 187-192):
default `image/jpeg`, overridden for a `.png` or `.webp` suffix. -/
def uploadContentType (filename : String) : String :=
  let contentType := "image/jpeg"
  if goHasSuffix filename ".png" then "image/png"
  else if goHasSuffix filename ".webp" then "image/webp"
  else contentType

/-- `UploadImage` (lines 184-214) response handling: failure iff
status ≥ 400. The inferred content type (see `uploadContentType`) is
set on the outgoing request, an external effect. -/
def SupabaseClient.UploadImage (_s : SupabaseClient) (_filename _bucket _image : String)
    (r : Exchange) : Option String × Option String :=
  match r with
  | .error e => (none, some e)
  | .ok resp =>
      let body := resp.body
      if 400 ≤ resp.status then
        (none, some ("supabase storage error (" ++ toString resp.status ++ "): " ++ body))
      else
        (some body, none)

/-- The anonymous struct `SignUp` unmarshals into (lines 242-245). -/
structure SignupResp where
  id : Nat
  email : String
deriving DecidableEq

/-- `lib.User` as read/written by this file: ID and Email. -/
structure User where
  ID : Nat
  Email : String
deriving DecidableEq

/-- `SignUp` (lines 217-263): success needs status 200 or 201, a body
that unmarshals, and a non-zero parsed ID. -/
def SupabaseClient.SignUp (_s : SupabaseClient) (_email _password : String)
    (unmarshal : String → Except String SignupResp) (r : Exchange) :
    Option User × Option String :=
  match r with
  | .error e => (none, some ("failed to send request: " ++ e))
  | .ok resp =>
      let body := resp.body
      if resp.status ≠ 200 ∧ resp.status ≠ 201 then
        (none, some ("failed to sign up user: " ++ body))
      else
        match unmarshal body with
        | .error e => (none, some ("failed to parse response: " ++ e))
        | .ok userResp =>
            if userResp.id = 0 then
              (none, some "user ID missing in response")
            else
              (some { ID := userResp.id, Email := userResp.email }, none)

/-- The anonymous error struct `Login` unmarshals into (lines
287-291). -/
structure LoginErrResp where
  error_code : String
  code : Nat
  msg : String
deriving DecidableEq

/-- `lib.AuthResponse`: an opaque pass-through payload. -/
structure AuthResponse where
  raw : String
deriving DecidableEq

/-- Helper for `goContains`: does `sub` occur at some position of the
list? -/
def containsAux : List Char → List Char → Bool
  | [], sub => sub.isEmpty
  | c :: rest, sub => sub.isPrefixOf (c :: rest) || containsAux rest sub

/-- Go `strings.Contains`: byte-level substring test (modelled on
characters, which agrees on the ASCII inputs here). -/
def goContains (s sub : String) : Bool :=
  containsAux s.data sub.data

/-- `Login` (lines 266-320): the substring check for `error_code` on
the raw body (line 285) runs before the status check (line 309). -/
def SupabaseClient.Login (_s : SupabaseClient) (_email _password : String)
    (unmarshalErr : String → Except String LoginErrResp)
    (unmarshalAuth : String → Except String AuthResponse)
    (r : Exchange) : Option AuthResponse × Option String :=
  match r with
  | .error e => (none, some ("failed to send request: " ++ e))
  | .ok resp =>
      let body := resp.body
      if goContains body "error_code" then
        match unmarshalErr body with
        | .error e => (none, some ("failed to parse error response: " ++ e))
        | .ok errorResp =>
            if errorResp.error_code = "invalid_credentials" then
              (none, some "invalid_credentials")
            else if errorResp.error_code = "email_not_confirmed" then
              (none, some "email_not_confirmed")
            else if errorResp.error_code = "user_not_found" then
              (none, some "user_not_found")
            else
              (none, some ("login_failed: " ++ errorResp.msg))
      else if resp.status ≠ 200 then
        (none, some ("login_failed: " ++ body))
      else
        match unmarshalAuth body with
        | .error e => (none, some ("failed to parse response: " ++ e))
        | .ok authResp => (some authResp, none)

/-- `UpdateUser` (lines 322-345): success needs status 200 and a body
that unmarshals into a `lib.User`. -/
def SupabaseClient.UpdateUser (_s : SupabaseClient) (_id : Nat)
    (unmarshalUser : String → Except String User) (r : Exchange) :
    Option User × Option String :=
  match r with
  | .error e => (none, some ("failed to send request: " ++ e))
  | .ok resp =>
      let body := resp.body
      if resp.status ≠ 200 then
        (none, some ("update user failed: " ++ body))
      else
        match unmarshalUser body with
        | .error e => (none, some ("failed to parse response: " ++ e))
        | .ok user => (some user, none)

/-- A concrete client for instantiating operation-level facts; the
response handlers never inspect these fields. -/
def testClient : SupabaseClient := ⟨"https://supabase.local", "anon-key"⟩

/-- An environment with the base URL missing: construction fails. -/
def badEnv : Env := ⟨"", "anon-key", "service-key"⟩

/-- An environment with all three variables present; the anon and
service keys are distinct. -/
def envBoth : Env := ⟨"https://supabase.local", "anon-key", "service-key"⟩

/-- A state in which the default instance already exists but the Once
has not fired (exactly what a first `GetGlobalClient` call under
`envBoth` leaves behind). -/
def builtState : GlobalState := ⟨some ⟨"https://supabase.local", "anon-key"⟩, false⟩

/-- A json.Unmarshal oracle for a body that is not a JSON document:
unmarshalling fails with the decoder's message. -/
def failingErrUnmarshal : String → Except String LoginErrResp :=
  fun _ => Except.error "invalid character s looking for beginning of value"

/-- A json.Unmarshal oracle parsing a structured login error carrying
code invalid_credentials. -/
def invalidCredsUnmarshal : String → Except String LoginErrResp :=
  fun _ => Except.ok ⟨"invalid_credentials", 400, "Invalid login credentials"⟩

/-- A pass-through auth-response oracle that always succeeds. -/
def okAuthUnmarshal : String → Except String AuthResponse :=
  fun b => Except.ok ⟨b⟩

/-- A signup oracle parsing the zero-value UUID. -/
def zeroIdUnmarshal : String → Except String SignupResp :=
  fun _ => Except.ok ⟨0, "a@b.com"⟩

/-- A signup oracle parsing a real (non-zero) UUID. -/
def realIdUnmarshal : String → Except String SignupResp :=
  fun _ => Except.ok ⟨7, "a@b.com"⟩

/-- A user oracle that never succeeds (only reached on error paths in
the facts below). -/
def failingUserUnmarshal : String → Except String User :=
  fun _ => Except.error "unexpected end of JSON input"

/-- The spec's test body for `SignUp`: a success payload whose id is
the zero-value UUID. -/
def zeroIdBody : String :=
  "\x7b\"id\":\"00000000-0000-0000-0000-000000000000\",\"email\":\"a@b.com\"\x7d"

/-- A structured login error body carrying invalid_credentials. -/
def errBody : String := "\x7b\"error_code\":\"invalid_credentials\"\x7d"

/-- An otherwise-valid success payload that happens to contain the
bytes `error_code` inside a field value. -/
def markerBody : String := "\x7b\"access_token\":\"t\",\"note\":\"error_code\"\x7d"

/-- Membership in the closed set of named login failure reasons the
spec describes for `Login`: the three fixed reasons, or the generic
login_failed message carrying the remote text. -/
def namedLoginFailure (m : String) : Bool :=
  (m == "invalid_credentials") || (m == "email_not_confirmed") ||
    (m == "user_not_found") || "login_failed: ".data.isPrefixOf m.data

theorem namedLoginFailure_login_failed (msg : String) :
    namedLoginFailure ("login_failed: " ++ msg) = true := by
  have h : ("login_failed: ").data.isPrefixOf (("login_failed: " ++ msg).data) = true := by
    rw [String.data_append, List.isPrefixOf_iff_prefix]
    exact List.prefix_append _ _
  simp [namedLoginFailure, h]

/-- C1 (counterexample): a non-2xx response (status 500) with an
empty body is returned by `POST` as success with the normalized
empty-object payload, refuting "success if and only if the HTTP
status is 201" and "a non-2xx status yields an error". -/
theorem C1_counterexample :
    testClient.POST "products" "[1]" (Except.ok ⟨500, ""⟩) = (some "\x7b\x7d", none) ∧
      (500 : Nat) ≠ 201 :=
  ⟨rfl, by decide⟩

/-- C1 (amended): for a delivered response, `POST` succeeds iff the
body is empty or the status is 201; an empty body is normalized to
the empty-object payload and returned as success regardless of status
(the empty-body check precedes the status check), and a non-empty
body with status ≠ 201 — 2xx or not — yields an error carrying the
body. -/
theorem C1_post_strict_201 (s : SupabaseClient) (table data : String) (st : Nat) (b : String) :
    ((s.POST table data (Except.ok ⟨st, b⟩)).2 = none ↔ (b.length = 0 ∨ st = 201)) ∧
    (b.length = 0 → (s.POST table data (Except.ok ⟨st, b⟩)).1 = some "\x7b\x7d") ∧
    (b.length ≠ 0 → st ≠ 201 →
      (s.POST table data (Except.ok ⟨st, b⟩)).2 = some ("supabase error: " ++ b)) := by
  unfold SupabaseClient.POST
  by_cases hb : b.length = 0 <;> by_cases hst : st = 201 <;> simp [hb, hst]

/-- C1 witness: an empty body at status 400 yields the normalized
success payload, and status 200 with a non-empty body is an error. -/
theorem C1_witness :
    (testClient.POST "products" "[1]" (Except.ok ⟨400, ""⟩)).1 = some "\x7b\x7d" ∧
    (testClient.POST "products" "[1]" (Except.ok ⟨200, "[\x7b\"ok\":true\x7d]"⟩)).2 =
      some ("supabase error: " ++ "[\x7b\"ok\":true\x7d]") :=
  ⟨(C1_post_strict_201 testClient "products" "[1]" 400 "").2.1 rfl,
   (C1_post_strict_201 testClient "products" "[1]" 200 "[\x7b\"ok\":true\x7d]").2.2
     (by decide) (by decide)⟩

/-- C2 (counterexample): the suffix test is case-sensitive, so the
filename photo.PNG maps to image/jpeg, not image/png as the claim
states. -/
theorem C2_counterexample :
    uploadContentType "photo.PNG" = "image/jpeg" ∧ "image/jpeg" ≠ "image/png" :=
  ⟨rfl, by decide⟩

/-- C2 (amended): extension matching is case-sensitive — a `.png`
suffix maps to image/png, `.webp` to image/webp, anything else
(photo.PNG included) to image/jpeg — and the inferred content type is
always one of the three recognized values. -/
theorem C2_upload_content_type :
    uploadContentType "photo.PNG" = "image/jpeg" ∧
    uploadContentType "photo.webp" = "image/webp" ∧
    uploadContentType "photo.jpg" = "image/jpeg" ∧
    uploadContentType "photo" = "image/jpeg" ∧
    uploadContentType "photo.png" = "image/png" ∧
    ∀ filename, uploadContentType filename = "image/png" ∨
      uploadContentType filename = "image/webp" ∨
      uploadContentType filename = "image/jpeg" := by
  refine ⟨rfl, rfl, rfl, rfl, rfl, ?_⟩
  intro filename
  by_cases h1 : goHasSuffix filename ".png" <;> by_cases h2 : goHasSuffix filename ".webp" <;>
    simp [uploadContentType, h1, h2]

/-- C3 (counterexample): with the base URL unset, two successive
`GetGlobalClient` calls from the initial state perform two
construction attempts — a failed construction is re-attempted,
refuting "at most one underlying construction" and "no automatic
retry". -/
theorem C3_counterexample :
    (runGets badEnv 2 GlobalState.initial).2 = 2 ∧
      ¬(runGets badEnv 2 GlobalState.initial).2 ≤ 1 := by
  decide

/-- C3 (amended): once the global pointer holds an instance, every
subsequent `GetGlobalClient` call returns that identical instance
with zero further constructions (iterated calls leave the state
unchanged); but while the pointer is nil, every call re-attempts
construction and stores whatever results, so a failed construction is
retried on each subsequent call rather than cached. -/
theorem C3_get_global_client (env : Env) :
    (∀ st c, st.globalClient = some c → GetGlobalClient env st = ⟨some c, st, 0⟩) ∧
    (∀ st, st.globalClient = none → (GetGlobalClient env st).constructions = 1 ∧
      (GetGlobalClient env st).client = NewSupabaseClient env []) ∧
    (∀ n st c, st.globalClient = some c → runGets env n st = (st, 0)) := by
  refine ⟨?_, ?_, ?_⟩
  · intro st c h
    simp [GetGlobalClient, h]
  · intro st h
    simp [GetGlobalClient, h]
  · intro n
    induction n with
    | zero => intro st c h; rfl
    | succ k ih =>
        intro st c h
        have hg : GetGlobalClient env st = ⟨some c, st, 0⟩ := by simp [GetGlobalClient, h]
        simp [runGets, hg, ih st c h]

/-- C3 witness: with a built instance present, one call returns it
unchanged and three iterated calls construct nothing; with the nil
state under a bad environment, a single call performs a construction
attempt. -/
theorem C3_witness :
    GetGlobalClient envBoth builtState =
      ⟨some ⟨"https://supabase.local", "anon-key"⟩, builtState, 0⟩ ∧
    runGets envBoth 3 builtState = (builtState, 0) ∧
    (GetGlobalClient badEnv GlobalState.initial).constructions = 1 :=
  ⟨(C3_get_global_client envBoth).1 builtState ⟨"https://supabase.local", "anon-key"⟩ rfl,
   (C3_get_global_client envBoth).2.2 3 builtState ⟨"https://supabase.local", "anon-key"⟩ rfl,
   ((C3_get_global_client badEnv).2.1 GlobalState.initial rfl).1⟩

/-- C4 (the code at the failing input): from a fresh process with all
environment variables set, `GetGlobalClient` builds the anon-key
singleton without firing the Once; a subsequent `InitGlobalClient`
with the service tier then runs the Once body and replaces the
existing instance with a different, service-key client — not an
idempotent no-op returning the existing instance. -/
theorem C4_init_replaces_existing :
    (GetGlobalClient envBoth GlobalState.initial).client =
      some ⟨"https://supabase.local", "anon-key"⟩ ∧
    (InitGlobalClient envBoth [true] (GetGlobalClient envBoth GlobalState.initial).state).client =
      some ⟨"https://supabase.local", "service-key"⟩ ∧
    (InitGlobalClient envBoth [true] (GetGlobalClient envBoth GlobalState.initial).state).client ≠
      (GetGlobalClient envBoth GlobalState.initial).client ∧
    (InitGlobalClient envBoth [true]
      (GetGlobalClient envBoth GlobalState.initial).state).constructions = 1 := by
  decide

/-- C5 (counterexample): a status-200 body that contains the
error_code marker but is not a JSON document makes `Login` return the
unmarshal failure message, which is not in the closed set of named
failure reasons — so not every marker-carrying body yields a mapped
named reason. -/
theorem C5_counterexample :
    goContains "status 200 but error_code text" "error_code" = true ∧
    (testClient.Login "a@b.com" "pw" failingErrUnmarshal okAuthUnmarshal
        (Except.ok ⟨200, "status 200 but error_code text"⟩)).2 =
      some "failed to parse error response: invalid character s looking for beginning of value" ∧
    namedLoginFailure
      "failed to parse error response: invalid character s looking for beginning of value"
        = false := by
  decide

/-- C5 (amended): the error_code check on the raw body takes
precedence over the status check — whenever the body contains the
marker, for any status (200 included): if the body unmarshals as the
error structure, `Login` returns one of the named failure reasons of
the closed set; if it does not unmarshal, `Login` returns the parse
failure instead (still an error); and with no marker in the body, any
non-200 status yields the generic login_failed error carrying the raw
body. -/
theorem C5_login_error_precedence (s : SupabaseClient) (email pw : String)
    (uE : String → Except String LoginErrResp) (uA : String → Except String AuthResponse)
    (resp : HttpResp) :
    (goContains resp.body "error_code" = true →
      (∀ er, uE resp.body = Except.ok er →
        (s.Login email pw uE uA (Except.ok resp)).2.isSome = true ∧
        namedLoginFailure ((s.Login email pw uE uA (Except.ok resp)).2.getD "") = true) ∧
      (∀ e, uE resp.body = Except.error e →
        (s.Login email pw uE uA (Except.ok resp)).2 =
          some ("failed to parse error response: " ++ e))) ∧
    (goContains resp.body "error_code" = false → resp.status ≠ 200 →
      (s.Login email pw uE uA (Except.ok resp)).2 = some ("login_failed: " ++ resp.body)) := by
  constructor
  · intro hmark
    constructor
    · intro er her
      by_cases h1 : er.error_code = "invalid_credentials"
      · simp [SupabaseClient.Login, hmark, her, h1, namedLoginFailure]
      · by_cases h2 : er.error_code = "email_not_confirmed"
        · simp [SupabaseClient.Login, hmark, her, h1, h2, namedLoginFailure]
        · by_cases h3 : er.error_code = "user_not_found"
          · simp [SupabaseClient.Login, hmark, her, h1, h2, h3, namedLoginFailure]
          · simp [SupabaseClient.Login, hmark, her, h1, h2, h3,
              namedLoginFailure_login_failed]
    · intro e he
      simp [SupabaseClient.Login, hmark, he]
  · intro hmark hst
    simp [SupabaseClient.Login, hmark, hst]

/-- C5 witness: a structured invalid_credentials body yields a named
reason of the closed set at status 400 and equally at status 200, and
a marker-free body at status 401 yields the generic login_failed
error carrying the raw body. -/
theorem C5_witness :
    namedLoginFailure ((testClient.Login "a@b.com" "pw" invalidCredsUnmarshal okAuthUnmarshal
        (Except.ok ⟨400, errBody⟩)).2.getD "") = true ∧
    namedLoginFailure ((testClient.Login "a@b.com" "pw" invalidCredsUnmarshal okAuthUnmarshal
        (Except.ok ⟨200, errBody⟩)).2.getD "") = true ∧
    (testClient.Login "a@b.com" "pw" invalidCredsUnmarshal okAuthUnmarshal
        (Except.ok ⟨401, "bad creds"⟩)).2 = some ("login_failed: " ++ "bad creds") :=
  ⟨(((C5_login_error_precedence testClient "a@b.com" "pw" invalidCredsUnmarshal
      okAuthUnmarshal ⟨400, errBody⟩).1 (by decide)).1 ⟨"invalid_credentials", 400,
        "Invalid login credentials"⟩ rfl).2,
   (((C5_login_error_precedence testClient "a@b.com" "pw" invalidCredsUnmarshal
      okAuthUnmarshal ⟨200, errBody⟩).1 (by decide)).1 ⟨"invalid_credentials", 400,
        "Invalid login credentials"⟩ rfl).2,
   (C5_login_error_precedence testClient "a@b.com" "pw" invalidCredsUnmarshal
      okAuthUnmarshal ⟨401, "bad creds"⟩).2 (by decide) (by decide)⟩

/-- C6: a sign-up response whose parsed id is the zero-value UUID is
rejected at every status — at the success statuses 200/201 with
precisely the "user ID missing in response" error — and a `User` is
returned only when the status is 200 or 201, the body unmarshals, and
the parsed ID is non-zero (the record carrying exactly the parsed
fields). -/
theorem C6_signup_zero_id (s : SupabaseClient) (email pw : String)
    (u : String → Except String SignupResp) (resp : HttpResp) :
    (∀ ur, u resp.body = Except.ok ur → ur.id = 0 →
      (s.SignUp email pw u (Except.ok resp)).1 = none) ∧
    (∀ ur, u resp.body = Except.ok ur → ur.id = 0 →
      (resp.status = 200 ∨ resp.status = 201) →
      s.SignUp email pw u (Except.ok resp) = (none, some "user ID missing in response")) ∧
    (∀ user, (s.SignUp email pw u (Except.ok resp)).1 = some user →
      (resp.status = 200 ∨ resp.status = 201) ∧
      ∃ ur, u resp.body = Except.ok ur ∧ ur.id ≠ 0 ∧ user = ⟨ur.id, ur.email⟩) := by
  by_cases hs : resp.status ≠ 200 ∧ resp.status ≠ 201
  · refine ⟨?_, ?_, ?_⟩
    · intro ur hu hz
      simp [SupabaseClient.SignUp, hs]
    · intro ur hu hz hst
      rcases hst with h | h <;> simp [h] at hs
    · intro user huser
      simp [SupabaseClient.SignUp, hs] at huser
  · refine ⟨?_, ?_, ?_⟩
    · intro ur hu hz
      simp [SupabaseClient.SignUp, hs, hu, hz]
    · intro ur hu hz hst
      simp [SupabaseClient.SignUp, hs, hu, hz]
    · intro user huser
      rcases hu : u resp.body with e | ur
      · simp [SupabaseClient.SignUp, hs, hu] at huser
      · by_cases hz : ur.id = 0
        · simp [SupabaseClient.SignUp, hs, hu, hz] at huser
        · simp [SupabaseClient.SignUp, hs, hu, hz] at huser
          refine ⟨?_, ur, rfl, hz, huser.symm⟩
          rcases Decidable.not_and_iff_or_not.mp hs with h | h <;>
            [exact Or.inl (not_not.mp h); exact Or.inr (not_not.mp h)]

/-- C6 witness: the spec's zero-UUID body at status 201 is rejected
with the dedicated error, and a status-200 response with a real
parsed ID yields the corresponding user. -/
theorem C6_witness :
    testClient.SignUp "a@b.com" "pw" zeroIdUnmarshal (Except.ok ⟨201, zeroIdBody⟩) =
      (none, some "user ID missing in response") ∧
    (((200 : Nat) = 200 ∨ (200 : Nat) = 201) ∧
      ∃ ur, realIdUnmarshal "resp" = Except.ok ur ∧ ur.id ≠ 0 ∧
        User.mk 7 "a@b.com" = ⟨ur.id, ur.email⟩) :=
  ⟨(C6_signup_zero_id testClient "a@b.com" "pw" zeroIdUnmarshal ⟨201, zeroIdBody⟩).2.1
      ⟨0, "a@b.com"⟩ rfl rfl (Or.inr rfl),
   (C6_signup_zero_id testClient "a@b.com" "pw" realIdUnmarshal ⟨200, "resp"⟩).2.2
      ⟨7, "a@b.com"⟩ rfl⟩

/-- C7: construction succeeds exactly when the base URL and the
tier-selected key are both non-empty, and a constructed client
carries exactly those environment values — never an empty URL or an
empty key. -/
theorem C7_construction (env : Env) (tier : List Bool) :
    (NewSupabaseClient env tier ≠ none ↔
      (env.SUPABASE_URL ≠ "" ∧ selectedKey env tier ≠ "")) ∧
    ∀ c, NewSupabaseClient env tier = some c →
      c.URL = env.SUPABASE_URL ∧ c.APIKey = selectedKey env tier ∧
      c.URL ≠ "" ∧ c.APIKey ≠ "" := by
  by_cases hu : env.SUPABASE_URL = "" <;> by_cases hk : selectedKey env tier = ""
  · constructor
    · simp [NewSupabaseClient, hu, hk]
    · intro c hc; simp [NewSupabaseClient, hu, hk] at hc
  · constructor
    · simp [NewSupabaseClient, hu, hk]
    · intro c hc; simp [NewSupabaseClient, hu, hk] at hc
  · constructor
    · simp [NewSupabaseClient, hu, hk]
    · intro c hc; simp [NewSupabaseClient, hu, hk] at hc
  · constructor
    · simp [NewSupabaseClient, hu, hk]
    · intro c hc
      simp [NewSupabaseClient, hu, hk] at hc
      subst hc
      exact ⟨rfl, rfl, hu, hk⟩

/-- C7 witness: under an environment with every variable present and
the service tier selected, the constructed client carries the
matching URL and service key, both non-empty. -/
theorem C7_witness :
    (SupabaseClient.mk "https://supabase.local" "service-key").URL = envBoth.SUPABASE_URL ∧
    (SupabaseClient.mk "https://supabase.local" "service-key").APIKey =
      selectedKey envBoth [true] ∧
    (SupabaseClient.mk "https://supabase.local" "service-key").URL ≠ "" ∧
    (SupabaseClient.mk "https://supabase.local" "service-key").APIKey ≠ "" :=
  (C7_construction envBoth [true]).2 ⟨"https://supabase.local", "service-key"⟩ rfl

/-- C8 (counterexample): `POST` and `UpdateUser` produce
non-success-status errors carrying only the body — at status 400 with
body "oops" neither message contains the digits 400. -/
theorem C8_counterexample :
    (testClient.POST "products" "[1]" (Except.ok ⟨400, "oops"⟩)).2 =
      some "supabase error: oops" ∧
    goContains "supabase error: oops" "400" = false ∧
    (testClient.UpdateUser 7 failingUserUnmarshal (Except.ok ⟨400, "oops"⟩)).2 =
      some "update user failed: oops" ∧
    goContains "update user failed: oops" "400" = false := by
  decide

/-- C8 (amended): the GET, PATCH, DELETE and UploadImage non-success
errors carry both the numeric status code and the raw body in their
message, but the POST and UpdateUser non-success-status errors carry
only the raw body, with no status code. -/
theorem C8_error_payloads (s : SupabaseClient)
    (table query cond data filename bucket img : String) (id : Nat)
    (uU : String → Except String User) (st : Nat) (b : String) :
    (st < 200 ∨ 300 ≤ st →
      (s.GET table query (Except.ok ⟨st, b⟩)).2 =
        some ("supabase error: status " ++ toString st ++ " - " ++ b)) ∧
    (st < 200 ∨ 300 ≤ st →
      (s.PATCH table id data (Except.ok ⟨st, b⟩)).2 =
        some ("supabase PATCH error (" ++ toString st ++ "): " ++ b)) ∧
    (st < 200 ∨ 300 ≤ st →
      (s.DELETE table cond (Except.ok ⟨st, b⟩)).2 =
        some ("DELETE operation failed (status " ++ toString st ++ "): " ++ b)) ∧
    (400 ≤ st →
      (s.UploadImage filename bucket img (Except.ok ⟨st, b⟩)).2 =
        some ("supabase storage error (" ++ toString st ++ "): " ++ b)) ∧
    (b.length ≠ 0 → st ≠ 201 →
      (s.POST table data (Except.ok ⟨st, b⟩)).2 = some ("supabase error: " ++ b)) ∧
    (st ≠ 200 →
      (s.UpdateUser id uU (Except.ok ⟨st, b⟩)).2 = some ("update user failed: " ++ b)) := by
  refine ⟨fun h => ?_, fun h => ?_, fun h => ?_, fun h => ?_, fun h1 h2 => ?_, fun h => ?_⟩
  · simp [SupabaseClient.GET, h]
  · simp [SupabaseClient.PATCH, h]
  · simp [SupabaseClient.DELETE, h]
  · simp [SupabaseClient.UploadImage, h]
  · simp [SupabaseClient.POST, h1, h2]
  · simp [SupabaseClient.UpdateUser, h]

/-- C8 witness: the six error shapes evaluated at status 404 with
body "nf". -/
theorem C8_witness :
    (testClient.GET "products" "id=eq.1" (Except.ok ⟨404, "nf"⟩)).2 =
      some ("supabase error: status " ++ toString (404 : Nat) ++ " - " ++ "nf") ∧
    (testClient.PATCH "products" 7 "[1]" (Except.ok ⟨404, "nf"⟩)).2 =
      some ("supabase PATCH error (" ++ toString (404 : Nat) ++ "): " ++ "nf") ∧
    (testClient.DELETE "products" "id=eq.1" (Except.ok ⟨404, "nf"⟩)).2 =
      some ("DELETE operation failed (status " ++ toString (404 : Nat) ++ "): " ++ "nf") ∧
    (testClient.UploadImage "a.png" "bucket" "img" (Except.ok ⟨404, "nf"⟩)).2 =
      some ("supabase storage error (" ++ toString (404 : Nat) ++ "): " ++ "nf") ∧
    (testClient.POST "products" "[1]" (Except.ok ⟨404, "nf"⟩)).2 =
      some ("supabase error: " ++ "nf") ∧
    (testClient.UpdateUser 7 failingUserUnmarshal (Except.ok ⟨404, "nf"⟩)).2 =
      some ("update user failed: " ++ "nf") := by
  have h := C8_error_payloads testClient "products" "id=eq.1" "id=eq.1" "[1]" "a.png"
    "bucket" "img" 7 failingUserUnmarshal 404 "nf"
  exact ⟨h.1 (by decide), h.2.1 (by decide), h.2.2.1 (by decide), h.2.2.2.1 (by decide),
    h.2.2.2.2.1 (by decide) (by decide), h.2.2.2.2.2 (by decide)⟩

/-- C9: the login error detection is a plain substring test on the
raw body — whenever the body contains the bytes error_code anywhere,
`Login` never returns an `AuthResponse`, and when such a body does
not unmarshal as the error structure, `Login` returns the parse
failure, whatever the status (200 included). -/
theorem C9_login_substring_detection (s : SupabaseClient) (email pw : String)
    (uE : String → Except String LoginErrResp) (uA : String → Except String AuthResponse)
    (resp : HttpResp) (hmark : goContains resp.body "error_code" = true) :
    (s.Login email pw uE uA (Except.ok resp)).1 = none ∧
    (∀ e, uE resp.body = Except.error e →
      (s.Login email pw uE uA (Except.ok resp)).2 =
        some ("failed to parse error response: " ++ e)) := by
  constructor
  · rcases hu : uE resp.body with e | er
    · simp [SupabaseClient.Login, hmark, hu]
    · by_cases h1 : er.error_code = "invalid_credentials" <;>
        by_cases h2 : er.error_code = "email_not_confirmed" <;>
        by_cases h3 : er.error_code = "user_not_found" <;>
        simp [SupabaseClient.Login, hmark, hu, h1, h2, h3]
  · intro e he
    simp [SupabaseClient.Login, hmark, he]

/-- C9 witness: an otherwise-valid success payload whose text
contains the marker, delivered with status 200, still produces no
`AuthResponse` and surfaces the parse failure. -/
theorem C9_witness :
    (testClient.Login "a@b.com" "pw" failingErrUnmarshal okAuthUnmarshal
        (Except.ok ⟨200, markerBody⟩)).1 = none ∧
    (testClient.Login "a@b.com" "pw" failingErrUnmarshal okAuthUnmarshal
        (Except.ok ⟨200, markerBody⟩)).2 =
      some ("failed to parse error response: " ++
        "invalid character s looking for beginning of value") :=
  ⟨(C9_login_substring_detection testClient "a@b.com" "pw" failingErrUnmarshal
      okAuthUnmarshal ⟨200, markerBody⟩ (by decide)).1,
   (C9_login_substring_detection testClient "a@b.com" "pw" failingErrUnmarshal
      okAuthUnmarshal ⟨200, markerBody⟩ (by decide)).2 _ rfl⟩

/-- C10: no operation ever returns both a usable value and an error —
for every operation, input and exchange outcome, at least one of the
two return slots is nil. -/
theorem C10_value_xor_error (s : SupabaseClient)
    (table query cond data filename bucket img email pw : String) (id : Nat)
    (uS : String → Except String SignupResp) (uE : String → Except String LoginErrResp)
    (uA : String → Except String AuthResponse) (uU : String → Except String User)
    (r : Exchange) :
    ((s.GET table query r).1 = none ∨ (s.GET table query r).2 = none) ∧
    ((s.POST table data r).1 = none ∨ (s.POST table data r).2 = none) ∧
    ((s.PATCH table id data r).1 = none ∨ (s.PATCH table id data r).2 = none) ∧
    ((s.DELETE table cond r).1 = none ∨ (s.DELETE table cond r).2 = none) ∧
    ((s.UploadImage filename bucket img r).1 = none ∨
      (s.UploadImage filename bucket img r).2 = none) ∧
    ((s.SignUp email pw uS r).1 = none ∨ (s.SignUp email pw uS r).2 = none) ∧
    ((s.Login email pw uE uA r).1 = none ∨ (s.Login email pw uE uA r).2 = none) ∧
    ((s.UpdateUser id uU r).1 = none ∨ (s.UpdateUser id uU r).2 = none) := by
  obtain e | resp := r
  · exact ⟨Or.inl rfl, Or.inl rfl, Or.inl rfl, Or.inl rfl, Or.inl rfl, Or.inl rfl,
      Or.inl rfl, Or.inl rfl⟩
  · refine ⟨?_, ?_, ?_, ?_, ?_, ?_, ?_, ?_⟩
    · by_cases h : resp.status < 200 ∨ 300 ≤ resp.status <;> simp [SupabaseClient.GET, h]
    · by_cases hb : resp.body.length = 0 <;> by_cases hst : resp.status = 201 <;>
        simp [SupabaseClient.POST, hb, hst]
    · by_cases h : resp.status < 200 ∨ 300 ≤ resp.status <;> simp [SupabaseClient.PATCH, h]
    · by_cases h : resp.status < 200 ∨ 300 ≤ resp.status <;> simp [SupabaseClient.DELETE, h]
    · by_cases h : 400 ≤ resp.status <;> simp [SupabaseClient.UploadImage, h]
    · by_cases hs : resp.status ≠ 200 ∧ resp.status ≠ 201
      · simp [SupabaseClient.SignUp, hs]
      · rcases hu : uS resp.body with e | ur
        · simp [SupabaseClient.SignUp, hs, hu]
        · by_cases hz : ur.id = 0 <;> simp [SupabaseClient.SignUp, hs, hu, hz]
    · by_cases hmark : goContains resp.body "error_code"
      · rcases hu : uE resp.body with e | er
        · simp [SupabaseClient.Login, hmark, hu]
        · by_cases h1 : er.error_code = "invalid_credentials" <;>
            by_cases h2 : er.error_code = "email_not_confirmed" <;>
            by_cases h3 : er.error_code = "user_not_found" <;>
            simp [SupabaseClient.Login, hmark, hu, h1, h2, h3]
      · by_cases hst : resp.status = 200
        · rcases ha : uA resp.body with e | a <;> simp [SupabaseClient.Login, hmark, hst, ha]
        · simp [SupabaseClient.Login, hmark, hst]
    · by_cases hst : resp.status = 200
      · rcases hu : uU resp.body with e | usr <;>
          simp [SupabaseClient.UpdateUser, hst, hu]
      · simp [SupabaseClient.UpdateUser, hst]

end db
